import Mathlib

/- Shallow embedding of src/source/backend/engine/CarlaEngineRtAudio.cpp
   (class CarlaEngineRtAudio of the Carla plugin host).

   Machine integers are modelled as Nat with explicit reductions modulo
   2 ^ 32 and 2 ^ 64 where the C++ code performs unsigned arithmetic that
   can wrap. Double values that the code only halves, compares and clamps
   are modelled as exact rationals (halving and these comparisons are exact
   in binary floating point). Fallible native calls (RtAudio / RtMidi) are
   modelled by oracle records describing their observable outcome. Constants
   declared in engine headers outside this translation unit (such as
   EngineMidiEvent.kDataSize, STR_MAX and kMaxEngineEventInternalCount) are
   kept as explicit parameters of the corresponding functions. -/

namespace CarlaRtAudio

/-- Timestamp normalization from handleMidiCallback (lines 711-716): the raw
RtMidi timestamp is halved, then lowered to 0.95 when above 0.95, then raised
to 0.0 when negative. -/
def normalizeTimeStamp (timeStamp : ℚ) : ℚ :=
  let t := timeStamp / 2
  if t > 0.95 then 0.95
  else if t < 0 then 0
  else t

/-- Struct RtMidiEvent (lines 915-919): absolute frame timestamp (uint64),
payload size (uint8) and the payload bytes padded to kDataSize. -/
structure RtMidiEvent where
  time : ℕ
  size : ℕ
  data : List ℕ
deriving DecidableEq

/-- State touched by handleMidiCallback: pData.audio.isReady,
pData.timeInfo.frame (uint64), pData.bufferSize, the field fLastEventTime
(uint64) and the pending partition fMidiInEvents.dataPending. -/
structure MidiIngestState where
  audioReady : Bool
  timeInfoFrame : ℕ
  bufferSize : ℕ
  lastEventTime : ℕ
  dataPending : List RtMidiEvent
deriving DecidableEq

/-- Line 719: midiEvent.time = pData.timeInfo.frame
+ uint64(timeStamp * double(pData.bufferSize)) in uint64 arithmetic; the
normalized timestamp is nonnegative, so the uint64 cast truncation is a
floor. -/
def computedMidiTime (s : MidiIngestState) (timeStamp : ℚ) : ℕ :=
  (s.timeInfoFrame + (⌊normalizeTimeStamp timeStamp * (s.bufferSize : ℚ)⌋).toNat) % 2 ^ 64

/-- Embedding of handleMidiCallback (lines 701-735). Drops the message when
the engine is not ready or the payload is empty or larger than kDataSize;
otherwise computes the frame timestamp, raises it to fLastEventTime when it
is smaller (leaving fLastEventTime in place), commits it to fLastEventTime
otherwise, and appends the event under lock to the pending partition. -/
def handleMidiCallback (kDataSize : ℕ) (s : MidiIngestState) (timeStamp : ℚ)
    (message : List ℕ) : MidiIngestState :=
  if s.audioReady = false then s
  else if message.length = 0 ∨ message.length > kDataSize then s
  else
    let computed := computedMidiTime s timeStamp
    let eventTime := if computed < s.lastEventTime then s.lastEventTime else computed
    let newLast := if computed < s.lastEventTime then s.lastEventTime else computed
    let ev : RtMidiEvent :=
      { time := eventTime
        size := message.length % 256
        data := message ++ List.replicate (kDataSize - message.length) 0 }
    { s with lastEventTime := newLast, dataPending := s.dataPending ++ [ev] }

/-- Invariant of the pending queue: timestamps are pairwise non-decreasing in
append order and every queued timestamp is at most fLastEventTime. -/
def MidiQueueInv (s : MidiIngestState) : Prop :=
  List.Pairwise (fun a b => a.time ≤ b.time) s.dataPending ∧
  ∀ e ∈ s.dataPending, e.time ≤ s.lastEventTime

instance (s : MidiIngestState) : Decidable (MidiQueueInv s) := by
  unfold MidiQueueInv; infer_instance

/-- C5: for every ingested MIDI event with raw timestamp fraction f, the
normalized fraction used by handleMidiCallback to compute its frame timestamp
equals clamp (f / 2) to the interval from 0.0 to 0.95: the raw value is
halved, then raised to 0.0 when negative and lowered to 0.95 when greater. -/
theorem c5_normalized_fraction_is_clamp (f : ℚ) :
    normalizeTimeStamp f = min (max (f / 2) 0) 0.95 := by
  show (if f / 2 > 0.95 then (0.95 : ℚ) else if f / 2 < 0 then 0 else f / 2)
      = min (max (f / 2) 0) 0.95
  split_ifs with h1 h2
  · rw [max_eq_left, min_eq_right]
    · exact le_of_lt h1
    · have : (0 : ℚ) ≤ 0.95 := by norm_num
      linarith
  · rw [max_eq_right (le_of_lt h2), min_eq_left (by norm_num)]
  · push_neg at h1 h2
    rw [max_eq_left h2, min_eq_left h1]

/-- C2: one step of the MIDI ingestion path preserves the queue invariant
(timestamps appended to the pending queue are non-decreasing and bounded by
the committed last timestamp), never decreases the committed fLastEventTime,
and either leaves the queue unchanged (dropped message) or appends exactly
one event whose timestamp is the computed timestamp raised to the previous
fLastEventTime when smaller (max of the two). -/
theorem c2_ingestion_monotonic (kDataSize : ℕ) (s : MidiIngestState)
    (timeStamp : ℚ) (message : List ℕ) (hinv : MidiQueueInv s) :
    MidiQueueInv (handleMidiCallback kDataSize s timeStamp message)
    ∧ s.lastEventTime ≤ (handleMidiCallback kDataSize s timeStamp message).lastEventTime
    ∧ ((handleMidiCallback kDataSize s timeStamp message).dataPending = s.dataPending
       ∨ (handleMidiCallback kDataSize s timeStamp message).dataPending
           = s.dataPending ++
             [{ time := max (computedMidiTime s timeStamp) s.lastEventTime
                size := message.length % 256
                data := message ++ List.replicate (kDataSize - message.length) 0 }]) := by
  obtain ⟨hsort, hbound⟩ := hinv
  unfold handleMidiCallback
  split_ifs with hready hdrop
  · exact ⟨⟨hsort, hbound⟩, le_refl _, Or.inl rfl⟩
  · exact ⟨⟨hsort, hbound⟩, le_refl _, Or.inl rfl⟩
  · simp only
    have hmax : (if computedMidiTime s timeStamp < s.lastEventTime then s.lastEventTime
        else computedMidiTime s timeStamp) = max (computedMidiTime s timeStamp) s.lastEventTime := by
      split <;> omega
    rw [hmax]
    refine ⟨⟨?_, ?_⟩, ?_, Or.inr rfl⟩
    · rw [List.pairwise_append]
      refine ⟨hsort, List.pairwise_singleton _ _, ?_⟩
      intro a ha b hb
      rw [List.mem_singleton] at hb
      subst hb
      exact le_trans (hbound a ha) (le_max_right _ _)
    · intro e he
      rw [List.mem_append, List.mem_singleton] at he
      rcases he with he | he
      · exact le_trans (hbound e he) (le_max_right _ _)
      · subst he; exact le_refl _
    · exact le_max_right _ _

/-- C2 witness: the ingestion step applied at a concrete ready state with an
empty pending queue and the message 0x90 0x3C 0x64 at raw timestamp 1/2. -/
theorem c2_ingestion_monotonic_witness :
    MidiQueueInv ⟨true, 1000, 512, 0, []⟩
    ∧ (MidiQueueInv (handleMidiCallback 4 ⟨true, 1000, 512, 0, []⟩ (1/2) [144, 60, 100])
       ∧ (1000 : ℕ) ≥ 0
       ∧ ((handleMidiCallback 4 ⟨true, 1000, 512, 0, []⟩ (1/2) [144, 60, 100]).dataPending = []
          ∨ (handleMidiCallback 4 ⟨true, 1000, 512, 0, []⟩ (1/2) [144, 60, 100]).dataPending
              = [] ++ [{ time := max (computedMidiTime ⟨true, 1000, 512, 0, []⟩ (1/2)) 0
                         size := 3
                         data := [144, 60, 100, 0] }])) := by
  have h := c2_ingestion_monotonic 4 ⟨true, 1000, 512, 0, []⟩ (1/2) [144, 60, 100]
    (by constructor <;> simp)
  refine ⟨by constructor <;> simp, h.1, by omega, ?_⟩
  simpa using h.2.2

/-- Event time translation inside handleAudioProcessCallback (lines 657-667)
together with the flag telling whether the branch that prints the
"MIDI Event in the future!" diagnostic was taken. Arguments: frame is
pData.timeInfo.frame (uint64), nframes the cycle frame count (uint32), t the
absolute event timestamp midiEvent.time (uint64). The middle branch computes
uint32(frame) + nframes - 1 in 32-bit unsigned arithmetic (adding 2 ^ 32 - 1
stands for the subtraction of 1 modulo 2 ^ 32); the last branch casts the
in-window difference to uint32. -/
def engineEventTimeDiag (frame nframes t : ℕ) : ℕ × Bool :=
  if t < frame then (0, false)
  else if (frame + nframes) % 2 ^ 64 ≤ t then
    ((frame % 2 ^ 32 + nframes + (2 ^ 32 - 1)) % 2 ^ 32, true)
  else ((t - frame) % 2 ^ 32, false)

/-- Engine-event time written by the drain loop for one drained MIDI event. -/
def engineEventTime (frame nframes t : ℕ) : ℕ :=
  (engineEventTimeDiag frame nframes t).1

/-- Record of one write into pData.events.in performed by the drain loop:
target index, the engine-event time, the raw payload handed to
fillFromMidiData, and whether the future-event diagnostic fired. -/
structure EventWrite where
  idx : ℕ
  time : ℕ
  size : ℕ
  data : List ℕ
  futureDiag : Bool
deriving DecidableEq

/-- Drain loop of handleAudioProcessCallback (lines 649-673): iterates the
spliced event list, writing pData.events.in at engineEventIndex and then
post-incrementing it; once the incremented index reaches kMax
(kMaxEngineEventInternalCount) the loop breaks. -/
def drainLoop (kMax frame nframes : ℕ) : List RtMidiEvent → ℕ → List EventWrite
  | [], _ => []
  | e :: rest, engineEventIndex =>
    let d := engineEventTimeDiag frame nframes e.time
    let w : EventWrite := ⟨engineEventIndex, d.1, e.size, e.data, d.2⟩
    if kMax ≤ engineEventIndex + 1 then [w]
    else w :: drainLoop kMax frame nframes rest (engineEventIndex + 1)

/-- Struct RtMidiEvents (lines 921-957): the active partition data and the
pending partition dataPending of the double-buffered MIDI queue. -/
structure RtMidiEvents where
  data : List RtMidiEvent
  dataPending : List RtMidiEvent
deriving DecidableEq

/-- MIDI drain block of handleAudioProcessCallback (lines 647-677): when the
try-lock succeeds, splice moves the pending partition to the end of the
active partition, the drain loop translates the events, and data.clear
discards the whole active partition; when the try-lock fails nothing
happens. -/
def drainMidiInEvents (kMax frame nframes : ℕ) (q : RtMidiEvents)
    (tryLockOk : Bool) : List EventWrite × RtMidiEvents :=
  if tryLockOk then
    (drainLoop kMax frame nframes (q.data ++ q.dataPending) 0, ⟨[], []⟩)
  else ([], q)

/-- Bounds of the drain loop: starting below kMax, every write lands at an
index between the start index and kMax - 1, and at most kMax - start writes
happen. -/
theorem drainLoop_bounds (kMax frame nframes : ℕ) :
    ∀ (l : List RtMidiEvent) (i : ℕ), i < kMax →
      (∀ w ∈ drainLoop kMax frame nframes l i, i ≤ w.idx ∧ w.idx < kMax)
      ∧ (drainLoop kMax frame nframes l i).length ≤ kMax - i := by
  intro l
  induction l with
  | nil =>
    intro i hi
    refine ⟨?_, ?_⟩
    · intro w hw; simp [drainLoop] at hw
    · simp [drainLoop]
  | cons e rest ih =>
    intro i hi
    unfold drainLoop
    split_ifs with hstop
    · refine ⟨?_, by simp; omega⟩
      intro w hw
      rw [List.mem_singleton] at hw
      subst hw
      exact ⟨le_refl _, hi⟩
    · push_neg at hstop
      obtain ⟨hmem, hlen⟩ := ih (i + 1) hstop
      constructor
      · intro w hw
        rw [List.mem_cons] at hw
        rcases hw with hw | hw
        · subst hw; exact ⟨le_refl _, hi⟩
        · have := hmem w hw; omega
      · simp only [List.length_cons]
        omega

/-- C10: in every cycle at most kMaxEngineEventInternalCount drained MIDI
events are translated into the engine input event array, no write reaches
index kMaxEngineEventInternalCount, and after a successful drain both queue
partitions are empty, so events beyond the capacity are discarded rather
than carried over to the next cycle. -/
theorem c10_drain_capacity (kMax frame nframes : ℕ) (q : RtMidiEvents)
    (tryLockOk : Bool) (hk : 1 ≤ kMax) :
    (∀ w ∈ (drainMidiInEvents kMax frame nframes q tryLockOk).1, w.idx < kMax)
    ∧ (drainMidiInEvents kMax frame nframes q tryLockOk).1.length ≤ kMax
    ∧ (tryLockOk = true →
        (drainMidiInEvents kMax frame nframes q tryLockOk).2 = ⟨[], []⟩) := by
  unfold drainMidiInEvents
  cases tryLockOk with
  | false =>
    refine ⟨?_, by simp, ?_⟩
    · intro w hw; simp at hw
    · intro h; cases h
  | true =>
    obtain ⟨hmem, hlen⟩ :=
      drainLoop_bounds kMax frame nframes (q.data ++ q.dataPending) 0 (by omega)
    exact ⟨fun w hw => (hmem w hw).2, by simpa using hlen, fun _ => rfl⟩

/-- C10 witness: a drain with capacity 2 over three queued events translates
exactly two of them, at indices 0 and 1, and leaves both partitions empty. -/
theorem c10_drain_capacity_witness :
    (1 : ℕ) ≤ 2
    ∧ ((∀ w ∈ (drainMidiInEvents 2 1000 16 ⟨[⟨1000, 1, [1]⟩], [⟨1001, 1, [2]⟩, ⟨1002, 1, [3]⟩]⟩ true).1,
          w.idx < 2)
       ∧ (drainMidiInEvents 2 1000 16 ⟨[⟨1000, 1, [1]⟩], [⟨1001, 1, [2]⟩, ⟨1002, 1, [3]⟩]⟩ true).1.length ≤ 2
       ∧ (true = true →
           (drainMidiInEvents 2 1000 16 ⟨[⟨1000, 1, [1]⟩], [⟨1001, 1, [2]⟩, ⟨1002, 1, [3]⟩]⟩ true).2
             = ⟨[], []⟩)) :=
  ⟨by decide,
   c10_drain_capacity 2 1000 16 ⟨[⟨1000, 1, [1]⟩], [⟨1001, 1, [2]⟩, ⟨1002, 1, [3]⟩]⟩ true (by decide)⟩

/-- C1: evaluation of the event time translation at frame 100 with frame
count 16. Below the window the time is 0 and inside the window it is the
exact offset, as the claim states; but for the timestamp 200 at or above the
window end the code stores uint32(frame) + frameCount - 1 = 115 (with the
future diagnostic emitted), not the claimed in-window offset
frameCount - 1 = 15. -/
theorem c1_future_event_time_divergence :
    engineEventTime 100 16 90 = 0
    ∧ engineEventTime 100 16 105 = 5
    ∧ engineEventTime 100 16 200 = 115
    ∧ (engineEventTimeDiag 100 16 200).2 = true
    ∧ engineEventTime 100 16 200 ≠ 16 - 1 := by
  refine ⟨rfl, rfl, ?_, ?_, ?_⟩ <;> decide

/-- Exit taken by handleAudioProcessCallback: one of the three early returns
(null output buffer at line 624, frame count mismatch at line 625, engine not
ready at line 627), or the full path that reaches FLOAT_CLEAR, the MIDI drain
and the rack processing. -/
inductive CycleExit where
  | nullOutputBuffer
  | bufferSizeMismatch
  | notReady
  | ranProcessing
deriving DecidableEq

/-- Result of the entry portion of handleAudioProcessCallback: which exit was
taken, the contents of the output buffer region at the moment the function
returns early or hands the buffers to the processing collaborator, and the
fact that runPendingRtEvents was executed. -/
structure CycleEntryResult where
  exit : CycleExit
  output : List ℚ
  ranPendingRtEvents : Bool
deriving DecidableEq

/-- Entry portion of handleAudioProcessCallback (lines 617-645): the three
guards return early (each via runPendingRtEvents) without touching the output
buffer; only after all three pass is the output region zeroed by FLOAT_CLEAR
(line 642), before the MIDI drain and the call into the processing
collaborator. The samples are modelled as exact rationals since the claim
only distinguishes zero from nonzero content. -/
def processCycleEntry (bufferSize : ℕ) (audioReady : Bool) (audioOutCount : ℕ)
    (outputIsNull : Bool) (output : List ℚ) (nframes : ℕ) : CycleEntryResult :=
  if outputIsNull then ⟨CycleExit.nullOutputBuffer, output, true⟩
  else if bufferSize ≠ nframes then ⟨CycleExit.bufferSizeMismatch, output, true⟩
  else if audioReady = false then ⟨CycleExit.notReady, output, true⟩
  else ⟨CycleExit.ranProcessing, List.replicate (nframes * audioOutCount) 0, true⟩

/-- Silence: every sample of the region is zero. -/
def IsSilence (l : List ℚ) : Prop := ∀ x ∈ l, x = 0

instance (l : List ℚ) : Decidable (IsSilence l) := by
  unfold IsSilence; infer_instance

/-- C3 counterexample: with committed buffer size 512 a cycle offering 256
frames returns early on the frame count check with the output buffer left at
its previous nonzero contents, so the output is not silence on that early
return; and the null-buffer guard is a further source of early return beside
the frame count validation. -/
theorem c3_zeroing_counterexample :
    (processCycleEntry 512 true 1 false [1] 256).exit = CycleExit.bufferSizeMismatch
    ∧ (processCycleEntry 512 true 1 false [1] 256).output = [1]
    ∧ ¬ IsSilence (processCycleEntry 512 true 1 false [1] 256).output
    ∧ (processCycleEntry 512 true 1 true [1] 512).exit = CycleExit.nullOutputBuffer := by
  refine ⟨rfl, rfl, ?_, rfl⟩
  intro h
  have := h 1 (by simp [processCycleEntry])
  norm_num at this

/-- C3 amended: the output buffer region is zeroed only after the three entry
guards (non-null output pointer, frame count equal to the committed buffer
size, engine ready) all pass, and before the MIDI drain and graph processing;
each failing guard returns early leaving the output buffer untouched (hence
not necessarily silent), and every path, early or not, runs the
pending-RT-events bookkeeping. -/
theorem c3_zeroing_amended (bufferSize audioOutCount nframes : ℕ)
    (audioReady outputIsNull : Bool) (output : List ℚ) :
    (processCycleEntry bufferSize audioReady audioOutCount outputIsNull output nframes).output
      = (if outputIsNull = false ∧ bufferSize = nframes ∧ audioReady = true
         then List.replicate (nframes * audioOutCount) 0 else output)
    ∧ ((processCycleEntry bufferSize audioReady audioOutCount outputIsNull output nframes).exit
          = CycleExit.ranProcessing
        ↔ (outputIsNull = false ∧ bufferSize = nframes ∧ audioReady = true))
    ∧ (processCycleEntry bufferSize audioReady audioOutCount outputIsNull output nframes).ranPendingRtEvents
        = true := by
  cases outputIsNull <;> cases audioReady <;>
    by_cases h : bufferSize = nframes <;>
      simp [processCycleEntry, h]

/-- Oracle describing the observable behaviour of the native collaborators
during init (lines 201-315): whether the configured process mode is one of
the two supported ones, the device count, the channel counts of an explicit
device match if any, the default device channel counts, the buffer frame
count written back by openStream (none when openStream threw RtError), the
sample rate reported by the opened stream, and whether startStream
succeeded. -/
structure InitEnv where
  processModeOk : Bool
  devCount : ℕ
  matchedDevice : Option (ℕ × ℕ)
  defaultInChannels : ℕ
  defaultOutChannels : ℕ
  openStreamNegotiated : Option ℕ
  streamSampleRate : ℕ
  startStreamOk : Bool
deriving DecidableEq

/-- Values committed into shared engine state by a successful init. -/
structure InitCommitted where
  bufferSize : ℕ
  sampleRate : ℕ
  audioInCount : ℕ
  audioOutCount : ℕ
deriving DecidableEq

/-- Embedding of init (lines 201-315): reject an unsupported process mode or
an empty device list; select the explicitly matched device or the defaults;
reject a selection with zero output channels; open the stream (failure when
RtError is thrown) and commit the buffer frame count written back by
openStream and the sample rate reported by the stream, not the requested
option values; finally start the stream, failing (after an internal close)
when startStream throws. -/
def initEngine (env : InitEnv) (requestedBufferSize requestedSampleRate : ℕ) :
    Option InitCommitted :=
  if env.processModeOk = false then none
  else if env.devCount = 0 then none
  else
    let chans := match env.matchedDevice with
      | some p => p
      | none => (env.defaultInChannels, env.defaultOutChannels)
    if chans.2 = 0 then none
    else
      match env.openStreamNegotiated with
      | none => none
      | some negotiated =>
        if env.startStreamOk then
          some ⟨negotiated, env.streamSampleRate, chans.1, chans.2⟩
        else none

/-- C4: whenever init returns success, the committed buffer frame count is
exactly the value written back by openStream and the committed sample rate is
exactly the rate reported by the opened stream, independently of the
requested option values. -/
theorem c4_init_commits_negotiated (env : InitEnv)
    (requestedBufferSize requestedSampleRate : ℕ) (st : InitCommitted)
    (h : initEngine env requestedBufferSize requestedSampleRate = some st) :
    env.openStreamNegotiated = some st.bufferSize
    ∧ st.sampleRate = env.streamSampleRate := by
  revert h
  unfold initEngine
  rcases env with ⟨pm, dc, md, dIn, dOut, osn, ssr, sso⟩
  dsimp only
  cases osn <;> cases md <;> split_ifs <;> intro h <;> (try dsimp only at h) <;>
    injection h with h2 <;> rw [← h2] <;> exact ⟨rfl, rfl⟩

/-- C4 witness: a successful init whose oracle negotiated 256 frames at
48000 Hz against a request of 512 frames at 44100 Hz commits exactly the
negotiated values. -/
theorem c4_init_commits_negotiated_witness :
    initEngine ⟨true, 3, none, 2, 2, some 256, 48000, true⟩ 512 44100
        = some ⟨256, 48000, 2, 2⟩
    ∧ ((⟨true, 3, none, 2, 2, some 256, 48000, true⟩ : InitEnv).openStreamNegotiated
          = some (256 : ℕ)
       ∧ (48000 : ℕ) = 48000) :=
  ⟨by decide,
   c4_init_commits_negotiated ⟨true, 3, none, 2, 2, some 256, 48000, true⟩ 512 44100
     ⟨256, 48000, 2, 2⟩ (by decide)⟩

/-- Oracle for close (lines 317-376): outcome of the base CarlaEngine close,
whether the stream is open and running, and the error message thrown by
stopStream when it throws. -/
structure CloseEnv where
  baseCloseOk : Bool
  streamOpen : Bool
  streamRunning : Bool
  stopStreamError : Option String
deriving DecidableEq

/-- Engine state touched by close: the ready flag, the channel counts, the
last event time, the device name, the used-ports list, both partitions of the
MIDI-in queue, both MIDI port registries (by port name; the native handles
are owned one-to-one by the entries), and the last error string. -/
structure EngineCloseState where
  audioReady : Bool
  audioInCount : ℕ
  audioOutCount : ℕ
  lastEventTime : ℕ
  deviceName : String
  usedMidiPorts : List String
  midiInData : List RtMidiEvent
  midiInPending : List RtMidiEvent
  midiIns : List String
  midiOuts : List String
  lastError : Option String
deriving DecidableEq

/-- Teardown steps in the order close performs them. -/
inductive TeardownAction where
  | stopStream
  | closeStream
  | cancelCallbackOf (name : String)
  | deleteMidiIn (name : String)
  | deleteMidiOut (name : String)
deriving DecidableEq

/-- Result of close: the returned boolean, the state afterwards and the trace
of teardown steps executed. -/
structure CloseResult where
  returnValue : Bool
  state : EngineCloseState
  trace : List TeardownAction
deriving DecidableEq

/-- Embedding of close (lines 317-376): clears the ready flag, runs the base
close (its failure setting hasError first), then, when the stream is open,
stops it when running (an RtError from stopStream is recorded into the last
error string only when no earlier error happened, and sets hasError) and
closes it; afterwards every MIDI input callback is cancelled and its port
deleted, every MIDI output port is deleted, and all counts, the last event
time, the device name, the used ports and both queue partitions are reset;
the return value is the negation of hasError. -/
def closeEngine (env : CloseEnv) (s : EngineCloseState) : CloseResult :=
  let hasError0 := !env.baseCloseOk
  let streamStep :
      Bool × Option String × List TeardownAction :=
    if env.streamOpen then
      if env.streamRunning then
        match env.stopStreamError with
        | some msg =>
          if hasError0 then
            (hasError0, s.lastError, [TeardownAction.stopStream, TeardownAction.closeStream])
          else
            (true, some msg, [TeardownAction.stopStream, TeardownAction.closeStream])
        | none =>
          (hasError0, s.lastError, [TeardownAction.stopStream, TeardownAction.closeStream])
      else (hasError0, s.lastError, [TeardownAction.closeStream])
    else (hasError0, s.lastError, [])
  { returnValue := !streamStep.1
    state :=
      { audioReady := false
        audioInCount := 0
        audioOutCount := 0
        lastEventTime := 0
        deviceName := ""
        usedMidiPorts := []
        midiInData := []
        midiInPending := []
        midiIns := []
        midiOuts := []
        lastError := streamStep.2.1 }
    trace :=
      streamStep.2.2
        ++ s.midiIns.flatMap
             (fun n => [TeardownAction.cancelCallbackOf n, TeardownAction.deleteMidiIn n])
        ++ s.midiOuts.map TeardownAction.deleteMidiOut }

/-- Fully-cleaned final state required of every close: port registries and
queue partitions empty, counts and last event time zero, device name and
used ports cleared, ready flag down. -/
def CloseCleanedUp (st : EngineCloseState) : Prop :=
  st.audioReady = false ∧ st.audioInCount = 0 ∧ st.audioOutCount = 0
  ∧ st.lastEventTime = 0 ∧ st.deviceName = "" ∧ st.usedMidiPorts = []
  ∧ st.midiInData = [] ∧ st.midiInPending = [] ∧ st.midiIns = []
  ∧ st.midiOuts = []

instance (st : EngineCloseState) : Decidable (CloseCleanedUp st) := by
  unfold CloseCleanedUp; infer_instance

/-- C6: when the open, running stream throws on stop and no earlier error
happened, close returns failure and records the thrown message as the last
error; and the teardown still runs to completion: the final state is fully
cleaned, and the executed teardown trace is exactly the one of an error-free
close, i.e. stop and close of the stream, then cancel-then-delete for every
MIDI input port in order, then delete for every MIDI output port. -/
theorem c6_close_error_reported_teardown_completes (env : CloseEnv)
    (s : EngineCloseState) (msg : String)
    (hOpen : env.streamOpen = true) (hRun : env.streamRunning = true)
    (hErr : env.stopStreamError = some msg) (hBase : env.baseCloseOk = true) :
    (closeEngine env s).returnValue = false
    ∧ (closeEngine env s).state.lastError = some msg
    ∧ CloseCleanedUp (closeEngine env s).state
    ∧ (closeEngine env s).trace
        = [TeardownAction.stopStream, TeardownAction.closeStream]
            ++ s.midiIns.flatMap
                 (fun n => [TeardownAction.cancelCallbackOf n, TeardownAction.deleteMidiIn n])
            ++ s.midiOuts.map TeardownAction.deleteMidiOut
    ∧ (closeEngine env s).trace
        = (closeEngine { env with stopStreamError := none } s).trace := by
  unfold closeEngine
  rw [hOpen, hRun, hErr, hBase]
  dsimp only
  refine ⟨rfl, rfl, ?_, rfl, rfl⟩
  unfold CloseCleanedUp
  exact ⟨rfl, rfl, rfl, rfl, rfl, rfl, rfl, rfl, rfl, rfl⟩

/-- C6 witness: close applied at a concrete state holding one MIDI input and
one MIDI output port, with the stream open and running, the base close
succeeding and stopStream throwing the message "stop failed". -/
theorem c6_close_error_reported_teardown_completes_witness :
    ((⟨true, true, true, some "stop failed"⟩ : CloseEnv).streamOpen = true
     ∧ (⟨true, true, true, some "stop failed"⟩ : CloseEnv).streamRunning = true
     ∧ (⟨true, true, true, some "stop failed"⟩ : CloseEnv).stopStreamError = some "stop failed"
     ∧ (⟨true, true, true, some "stop failed"⟩ : CloseEnv).baseCloseOk = true)
    ∧ ((closeEngine ⟨true, true, true, some "stop failed"⟩
          ⟨true, 2, 2, 77, "dev", [], [], [], ["inA"], ["outB"], none⟩).returnValue = false
       ∧ (closeEngine ⟨true, true, true, some "stop failed"⟩
            ⟨true, 2, 2, 77, "dev", [], [], [], ["inA"], ["outB"], none⟩).state.lastError
           = some "stop failed"
       ∧ CloseCleanedUp (closeEngine ⟨true, true, true, some "stop failed"⟩
            ⟨true, 2, 2, 77, "dev", [], [], [], ["inA"], ["outB"], none⟩).state) := by
  have h := c6_close_error_reported_teardown_completes
    ⟨true, true, true, some "stop failed"⟩
    ⟨true, 2, 2, 77, "dev", [], [], [], ["inA"], ["outB"], none⟩
    "stop failed" rfl rfl rfl rfl
  exact ⟨⟨rfl, rfl, rfl, rfl⟩, h.1, h.2.1, h.2.2.1⟩

/-- Struct ConnectionToId as filled by setData: identifier and the two
(group, port) endpoints. Group and port identifiers are plain numbers; the
named constants below stand for the RACK_GRAPH enumerators declared in the
engine headers outside this translation unit (their concrete values are
irrelevant to the claims, only their role as endpoint labels). -/
structure ConnectionToId where
  id : ℕ
  groupA : ℕ
  portA : ℕ
  groupB : ℕ
  portB : ℕ
deriving DecidableEq

def RACK_GRAPH_GROUP_CARLA : ℕ := 1
def RACK_GRAPH_GROUP_AUDIO_IN : ℕ := 2
def RACK_GRAPH_GROUP_AUDIO_OUT : ℕ := 3
def RACK_GRAPH_GROUP_MIDI_IN : ℕ := 4
def RACK_GRAPH_GROUP_MIDI_OUT : ℕ := 5
def RACK_GRAPH_CARLA_PORT_AUDIO_IN1 : ℕ := 1
def RACK_GRAPH_CARLA_PORT_AUDIO_IN2 : ℕ := 2
def RACK_GRAPH_CARLA_PORT_AUDIO_OUT1 : ℕ := 3
def RACK_GRAPH_CARLA_PORT_AUDIO_OUT2 : ℕ := 4
def RACK_GRAPH_CARLA_PORT_MIDI_IN : ℕ := 5
def RACK_GRAPH_CARLA_PORT_MIDI_OUT : ℕ := 6

/-- Generic shape of the six connection-emission loops of
patchbayRefreshRack (lines 510-607): iterate a list, skip the entries whose
guard fails (CARLA_SAFE_ASSERT_CONTINUE), and for each kept entry allocate
the next identifier by pre-incrementing the shared counter
rack.connections.lastId, emit the connection and append it. Returns the
emitted connections and the final counter. -/
def allocConnections (guard : α → Bool) (mk : ℕ → α → ConnectionToId) :
    List α → ℕ → List ConnectionToId × ℕ
  | [], lastId => ([], lastId)
  | x :: xs, lastId =>
    if guard x then
      let c := mk (lastId + 1) x
      let r := allocConnections guard mk xs (lastId + 1)
      (c :: r.1, r.2)
    else allocConnections guard mk xs lastId

/-- Inputs of the connection-emission phase of patchbayRefreshRack: the
counter, the four audio connection lists guarded by the channel counts, and
the two MIDI port registries whose entries are looked up in the discovered
hardware lists via rack.midi.getPortId (kept abstract as the two lookup
functions, guarded against the discovered counts). -/
structure RackRefreshInput where
  lastId : ℕ
  connectedIn1 : List ℕ
  connectedIn2 : List ℕ
  connectedOut1 : List ℕ
  connectedOut2 : List ℕ
  audioInCount : ℕ
  audioOutCount : ℕ
  midiInsCount : ℕ
  midiOutsCount : ℕ
  fMidiIns : List String
  fMidiOuts : List String

/-- Connection emission of patchbayRefreshRack (lines 510-607) in source
order: audio-in-1, audio-in-2, audio-out-1, audio-out-2 connections under the
audio mutex, then the MIDI input and MIDI output connections, all drawing
identifiers from the single counter. -/
def patchbayRefreshRackConnections (inp : RackRefreshInput)
    (midiInPortId midiOutPortId : String → ℕ) : List ConnectionToId × ℕ :=
  let a1 := allocConnections (fun p => decide (p < inp.audioInCount))
    (fun i p => ⟨i, RACK_GRAPH_GROUP_AUDIO_IN, p,
                 RACK_GRAPH_GROUP_CARLA, RACK_GRAPH_CARLA_PORT_AUDIO_IN1⟩)
    inp.connectedIn1 inp.lastId
  let a2 := allocConnections (fun p => decide (p < inp.audioInCount))
    (fun i p => ⟨i, RACK_GRAPH_GROUP_AUDIO_IN, p,
                 RACK_GRAPH_GROUP_CARLA, RACK_GRAPH_CARLA_PORT_AUDIO_IN2⟩)
    inp.connectedIn2 a1.2
  let a3 := allocConnections (fun p => decide (p < inp.audioOutCount))
    (fun i p => ⟨i, RACK_GRAPH_GROUP_CARLA, RACK_GRAPH_CARLA_PORT_AUDIO_OUT1,
                 RACK_GRAPH_GROUP_AUDIO_OUT, p⟩)
    inp.connectedOut1 a2.2
  let a4 := allocConnections (fun p => decide (p < inp.audioOutCount))
    (fun i p => ⟨i, RACK_GRAPH_GROUP_CARLA, RACK_GRAPH_CARLA_PORT_AUDIO_OUT2,
                 RACK_GRAPH_GROUP_AUDIO_OUT, p⟩)
    inp.connectedOut2 a3.2
  let m1 := allocConnections (fun n => decide (midiInPortId n < inp.midiInsCount))
    (fun i n => ⟨i, RACK_GRAPH_GROUP_MIDI_IN, midiInPortId n,
                 RACK_GRAPH_GROUP_CARLA, RACK_GRAPH_CARLA_PORT_MIDI_IN⟩)
    inp.fMidiIns a4.2
  let m2 := allocConnections (fun n => decide (midiOutPortId n < inp.midiOutsCount))
    (fun i n => ⟨i, RACK_GRAPH_GROUP_CARLA, RACK_GRAPH_CARLA_PORT_MIDI_OUT,
                 RACK_GRAPH_GROUP_MIDI_OUT, midiOutPortId n⟩)
    inp.fMidiOuts m1.2
  (a1.1 ++ a2.1 ++ a3.1 ++ a4.1 ++ m1.1 ++ m2.1, m2.2)

/-- Identifier bounds of one emission loop: the counter never decreases,
every emitted identifier lies strictly above the starting counter and at
most at the final counter, and identifiers are strictly increasing in
emission order. -/
theorem allocConnections_bounds (guard : α → Bool) (mk : ℕ → α → ConnectionToId)
    (hmk : ∀ i x, (mk i x).id = i) :
    ∀ (l : List α) (lastId : ℕ),
      lastId ≤ (allocConnections guard mk l lastId).2
      ∧ (∀ c ∈ (allocConnections guard mk l lastId).1,
           lastId < c.id ∧ c.id ≤ (allocConnections guard mk l lastId).2)
      ∧ List.Pairwise (fun a b => a.id < b.id) (allocConnections guard mk l lastId).1 := by
  intro l
  induction l with
  | nil =>
    intro lastId
    refine ⟨le_refl _, ?_, ?_⟩
    · intro c hc; simp [allocConnections] at hc
    · simp [allocConnections]
  | cons x xs ih =>
    intro lastId
    unfold allocConnections
    split_ifs with hg
    · obtain ⟨hle, hmem, hsort⟩ := ih (lastId + 1)
      dsimp only
      refine ⟨by omega, ?_, ?_⟩
      · intro c hc
        rw [List.mem_cons] at hc
        rcases hc with hc | hc
        · subst hc; rw [hmk]; omega
        · have := hmem c hc; omega
      · rw [List.pairwise_cons]
        refine ⟨?_, hsort⟩
        intro c hc
        rw [hmk]
        exact (hmem c hc).1
    · exact ih lastId

/-- Pairwise strict order of a concatenation when every identifier of the
first part is bounded through a middle value by every identifier of the
second part. -/
theorem pairwise_id_append {l : List ConnectionToId} {r : List ConnectionToId} (m : ℕ)
    (hl : List.Pairwise (fun a b => a.id < b.id) l)
    (hr : List.Pairwise (fun a b => a.id < b.id) r)
    (hlb : ∀ c ∈ l, c.id ≤ m) (hrb : ∀ c ∈ r, m < c.id) :
    List.Pairwise (fun a b => a.id < b.id) (l ++ r) := by
  rw [List.pairwise_append]
  refine ⟨hl, hr, ?_⟩
  intro a ha b hb
  exact lt_of_le_of_lt (hlb a ha) (hrb b hb)

/-- Extension step used to chain the six emission loops: a sorted prefix
bounded by the current counter stays sorted and bounded once the next loop,
started at that counter, is appended. -/
theorem allocConnections_extend (guard : α → Bool) (mk : ℕ → α → ConnectionToId)
    (hmk : ∀ i x, (mk i x).id = i) (l : List α) (acc : List ConnectionToId) (lo : ℕ)
    (hacc : List.Pairwise (fun a b => a.id < b.id) acc)
    (hbound : ∀ c ∈ acc, c.id ≤ lo) :
    List.Pairwise (fun a b => a.id < b.id) (acc ++ (allocConnections guard mk l lo).1)
    ∧ (∀ c ∈ acc ++ (allocConnections guard mk l lo).1,
         c.id ≤ (allocConnections guard mk l lo).2)
    ∧ lo ≤ (allocConnections guard mk l lo).2 := by
  obtain ⟨hle, hmem, hsort⟩ := allocConnections_bounds guard mk hmk l lo
  refine ⟨pairwise_id_append lo hacc hsort hbound (fun c hc => (hmem c hc).1), ?_, hle⟩
  intro c hc
  rw [List.mem_append] at hc
  rcases hc with hc | hc
  · exact le_trans (hbound c hc) hle
  · exact (hmem c hc).2

/-- Pairwise strict identifier order makes the identifier list nodup. -/
theorem pairwise_id_nodup {l : List ConnectionToId}
    (h : List.Pairwise (fun a b => a.id < b.id) l) :
    (l.map ConnectionToId.id).Nodup := by
  have hp : List.Pairwise (fun a b : ℕ => a ≠ b) (l.map ConnectionToId.id) := by
    rw [List.pairwise_map]
    exact h.imp (fun hab => Nat.ne_of_lt hab)
  exact hp

/-- C7: within a single patchbayRefreshRack pass the emitted connection
identifiers are strictly increasing in emission order (audio-in, audio-out,
MIDI-in, MIDI-out), hence no two connections of the pass share an
identifier. -/
theorem c7_connection_ids_strictly_increasing (inp : RackRefreshInput)
    (midiInPortId midiOutPortId : String → ℕ) :
    List.Pairwise (fun a b => a.id < b.id)
      (patchbayRefreshRackConnections inp midiInPortId midiOutPortId).1
    ∧ ((patchbayRefreshRackConnections inp midiInPortId midiOutPortId).1.map
         ConnectionToId.id).Nodup := by
  have hmain : List.Pairwise (fun a b => a.id < b.id)
      (patchbayRefreshRackConnections inp midiInPortId midiOutPortId).1 := by
    unfold patchbayRefreshRackConnections
    dsimp only
    have e1 := allocConnections_extend
      (fun p => decide (p < inp.audioInCount))
      (fun i p => (⟨i, RACK_GRAPH_GROUP_AUDIO_IN, p,
                    RACK_GRAPH_GROUP_CARLA, RACK_GRAPH_CARLA_PORT_AUDIO_IN1⟩ : ConnectionToId))
      (fun i p => rfl) inp.connectedIn1 [] inp.lastId (by simp) (by simp)
    have e2 := allocConnections_extend
      (fun p => decide (p < inp.audioInCount))
      (fun i p => (⟨i, RACK_GRAPH_GROUP_AUDIO_IN, p,
                    RACK_GRAPH_GROUP_CARLA, RACK_GRAPH_CARLA_PORT_AUDIO_IN2⟩ : ConnectionToId))
      (fun i p => rfl) inp.connectedIn2 _ _ e1.1 e1.2.1
    have e3 := allocConnections_extend
      (fun p => decide (p < inp.audioOutCount))
      (fun i p => (⟨i, RACK_GRAPH_GROUP_CARLA, RACK_GRAPH_CARLA_PORT_AUDIO_OUT1,
                    RACK_GRAPH_GROUP_AUDIO_OUT, p⟩ : ConnectionToId))
      (fun i p => rfl) inp.connectedOut1 _ _ e2.1 e2.2.1
    have e4 := allocConnections_extend
      (fun p => decide (p < inp.audioOutCount))
      (fun i p => (⟨i, RACK_GRAPH_GROUP_CARLA, RACK_GRAPH_CARLA_PORT_AUDIO_OUT2,
                    RACK_GRAPH_GROUP_AUDIO_OUT, p⟩ : ConnectionToId))
      (fun i p => rfl) inp.connectedOut2 _ _ e3.1 e3.2.1
    have e5 := allocConnections_extend
      (fun n => decide (midiInPortId n < inp.midiInsCount))
      (fun i n => (⟨i, RACK_GRAPH_GROUP_MIDI_IN, midiInPortId n,
                    RACK_GRAPH_GROUP_CARLA, RACK_GRAPH_CARLA_PORT_MIDI_IN⟩ : ConnectionToId))
      (fun i n => rfl) inp.fMidiIns _ _ e4.1 e4.2.1
    have e6 := allocConnections_extend
      (fun n => decide (midiOutPortId n < inp.midiOutsCount))
      (fun i n => (⟨i, RACK_GRAPH_GROUP_CARLA, RACK_GRAPH_CARLA_PORT_MIDI_OUT,
                    RACK_GRAPH_GROUP_MIDI_OUT, midiOutPortId n⟩ : ConnectionToId))
      (fun i n => rfl) inp.fMidiOuts _ _ e5.1 e5.2.1
    have := e6.1
    simpa [List.append_assoc] using this
  exact ⟨hmain, pairwise_id_nodup hmain⟩

/-- Name stored into the fixed MidiPort.name buffer by strncpy with bound
strMax (STR_MAX is declared outside this translation unit and is kept as a
parameter): the port name truncated to strMax characters. -/
def storedPortName (strMax : ℕ) (portName : String) : String :=
  String.mk (portName.data.take strMax)

/-- Oracle for the native side of the rack MIDI connect and disconnect
operations: the count of discovered hardware MIDI-in ports
(rack.midi.ins.count(), asserted nonzero by all four operations), the names
visible through getPortName on a fresh RtMidiIn and RtMidiOut, and whether
openPort throws. -/
structure MidiConnectEnv where
  rackMidiInsCount : ℕ
  visibleInPorts : List String
  visibleOutPorts : List String
  openInPortThrows : Bool
  openOutPortThrows : Bool
deriving DecidableEq

/-- How a connect call ends: a boolean return, or an exception leaving the
function (no boolean returned at all). -/
inductive NativeCallEnd where
  | returnedTrue
  | returnedFalse
  | threw
deriving DecidableEq

/-- Observable outcome of a connect call: how it ended, the port registry
afterwards (as the list of stored names), and how many freshly allocated
native handles were neither freed nor handed to the registry. -/
structure MidiConnectResult where
  outcome : NativeCallEnd
  registry : List String
  leakedHandles : ℕ
deriving DecidableEq

/-- Embedding of connectRackMidiInPort (lines 739-791): asserts a nonempty
name and a nonzero discovered-port count, allocates an RtMidiIn, searches the
visible ports for an exact name match (deleting the handle and returning
false when absent), opens the port inside try/catch (deleting the handle and
returning false when it throws), and on success appends the truncated name to
fMidiIns and returns true. -/
def connectRackMidiInPort (env : MidiConnectEnv) (strMax : ℕ)
    (fMidiIns : List String) (portName : String) : MidiConnectResult :=
  if portName = "" then ⟨NativeCallEnd.returnedFalse, fMidiIns, 0⟩
  else if env.rackMidiInsCount = 0 then ⟨NativeCallEnd.returnedFalse, fMidiIns, 0⟩
  else if portName ∈ env.visibleInPorts then
    if env.openInPortThrows then ⟨NativeCallEnd.returnedFalse, fMidiIns, 0⟩
    else ⟨NativeCallEnd.returnedTrue, fMidiIns ++ [storedPortName strMax portName], 0⟩
  else ⟨NativeCallEnd.returnedFalse, fMidiIns, 0⟩

/-- Embedding of connectRackMidiOutPort (lines 793-837): same shape, except
that the openPort call at line 827 is not wrapped in try/catch, so an
exception from it propagates out of the function with the fresh RtMidiOut
handle neither freed nor registered. -/
def connectRackMidiOutPort (env : MidiConnectEnv) (strMax : ℕ)
    (fMidiOuts : List String) (portName : String) : MidiConnectResult :=
  if portName = "" then ⟨NativeCallEnd.returnedFalse, fMidiOuts, 0⟩
  else if env.rackMidiInsCount = 0 then ⟨NativeCallEnd.returnedFalse, fMidiOuts, 0⟩
  else if portName ∈ env.visibleOutPorts then
    if env.openOutPortThrows then ⟨NativeCallEnd.threw, fMidiOuts, 1⟩
    else ⟨NativeCallEnd.returnedTrue, fMidiOuts ++ [storedPortName strMax portName], 0⟩
  else ⟨NativeCallEnd.returnedFalse, fMidiOuts, 0⟩

/-- Embedding of disconnectRackMidiInPort (lines 839-864): asserts a
nonempty name and a nonzero discovered-port count, walks fMidiIns for the
first entry whose stored name equals portName, cancels its callback, deletes
the handle, removes the entry and returns true; returns false when no entry
matches. -/
def disconnectRackMidiInPort (env : MidiConnectEnv)
    (fMidiIns : List String) (portName : String) : Bool × List String :=
  if portName = "" then (false, fMidiIns)
  else if env.rackMidiInsCount = 0 then (false, fMidiIns)
  else if portName ∈ fMidiIns then (true, fMidiIns.erase portName)
  else (false, fMidiIns)

/-- Erasing the appended element of a concatenation with a singleton is a
permutation of the original list. -/
theorem erase_append_singleton_perm (x : String) :
    ∀ l : List String, ((l ++ [x]).erase x).Perm l := by
  intro l
  by_cases hx : x ∈ l
  · rw [List.erase_append_left _ hx]
    exact (List.perm_append_singleton x (l.erase x)).trans (List.perm_cons_erase hx).symm
  · rw [List.erase_append_right _ hx]
    simp

/-- C8: after a successful connectRackMidiInPort of a port name that fits
the name buffer, disconnectRackMidiInPort of the same name reports success
and leaves the MIDI input registry with exactly the port names it held
before the connect (a permutation, hence the same name set). -/
theorem c8_connect_disconnect_roundtrip (env : MidiConnectEnv) (strMax : ℕ)
    (fMidiIns : List String) (portName : String)
    (hfits : storedPortName strMax portName = portName)
    (hconn : (connectRackMidiInPort env strMax fMidiIns portName).outcome
        = NativeCallEnd.returnedTrue) :
    (disconnectRackMidiInPort env
        (connectRackMidiInPort env strMax fMidiIns portName).registry portName).1 = true
    ∧ ((disconnectRackMidiInPort env
          (connectRackMidiInPort env strMax fMidiIns portName).registry portName).2).Perm
        fMidiIns := by
  unfold connectRackMidiInPort at hconn ⊢
  split_ifs at hconn ⊢ with h1 h2 h3 h4
  dsimp only
  rw [hfits]
  unfold disconnectRackMidiInPort
  rw [if_neg h1, if_neg h2,
      if_pos (show portName ∈ fMidiIns ++ [portName] by simp)]
  exact ⟨rfl, erase_append_singleton_perm portName fMidiIns⟩

/-- C8 witness: connecting and then disconnecting the visible port "X" on an
initially empty registry succeeds and restores the empty registry. -/
theorem c8_connect_disconnect_roundtrip_witness :
    (storedPortName 255 "X" = "X"
     ∧ (connectRackMidiInPort ⟨1, ["X"], [], false, false⟩ 255 [] "X").outcome
         = NativeCallEnd.returnedTrue)
    ∧ ((disconnectRackMidiInPort ⟨1, ["X"], [], false, false⟩
          (connectRackMidiInPort ⟨1, ["X"], [], false, false⟩ 255 [] "X").registry "X").1 = true
       ∧ ((disconnectRackMidiInPort ⟨1, ["X"], [], false, false⟩
             (connectRackMidiInPort ⟨1, ["X"], [], false, false⟩ 255 [] "X").registry "X").2).Perm
           []) := by
  have h := c8_connect_disconnect_roundtrip ⟨1, ["X"], [], false, false⟩ 255 [] "X"
    (by decide) (by decide)
  exact ⟨⟨by decide, by decide⟩, h⟩

/-- C9 counterexample: when the named port is visible to a fresh RtMidiOut
but opening it throws, connectRackMidiOutPort does not return failure (the
exception propagates out) and the fresh native handle is not released; only
the registry is left unchanged. This refutes the claim for the output-port
connect; the input-port connect does satisfy it. -/
theorem c9_out_port_open_throw_counterexample :
    connectRackMidiOutPort ⟨1, [], ["X"], false, true⟩ 255 ["p"] "X"
        = ⟨NativeCallEnd.threw, ["p"], 1⟩
    ∧ NativeCallEnd.threw ≠ NativeCallEnd.returnedFalse
    ∧ (1 : ℕ) ≠ 0 := by
  refine ⟨?_, by decide, by decide⟩
  decide

/-- C9 amended: connectRackMidiInPort, on any native failure (name not
visible, or openPort threw), returns false with the handle released and the
registry unchanged; connectRackMidiOutPort does the same when the name is
not visible, but when openPort throws it lets the exception propagate with
the handle unreleased, leaving only the registry unchanged. -/
theorem c9_native_failure_cleanup_amended (env : MidiConnectEnv) (strMax : ℕ)
    (registry : List String) (portName : String) :
    ((portName ∉ env.visibleInPorts ∨ env.openInPortThrows = true) →
       connectRackMidiInPort env strMax registry portName
         = ⟨NativeCallEnd.returnedFalse, registry, 0⟩)
    ∧ (portName ∉ env.visibleOutPorts →
       connectRackMidiOutPort env strMax registry portName
         = ⟨NativeCallEnd.returnedFalse, registry, 0⟩)
    ∧ (portName ≠ "" → env.rackMidiInsCount ≠ 0 → portName ∈ env.visibleOutPorts →
       env.openOutPortThrows = true →
       connectRackMidiOutPort env strMax registry portName
         = ⟨NativeCallEnd.threw, registry, 1⟩) := by
  refine ⟨?_, ?_, ?_⟩
  · intro hfail
    unfold connectRackMidiInPort
    by_cases h1 : portName = ""
    · rw [if_pos h1]
    · rw [if_neg h1]
      by_cases h2 : env.rackMidiInsCount = 0
      · rw [if_pos h2]
      · rw [if_neg h2]
        by_cases h3 : portName ∈ env.visibleInPorts
        · rw [if_pos h3]
          rcases hfail with hfail | hfail
          · exact absurd h3 hfail
          · rw [if_pos hfail]
        · rw [if_neg h3]
  · intro hfail
    unfold connectRackMidiOutPort
    by_cases h1 : portName = ""
    · rw [if_pos h1]
    · rw [if_neg h1]
      by_cases h2 : env.rackMidiInsCount = 0
      · rw [if_pos h2]
      · rw [if_neg h2, if_neg hfail]
  · intro hname hcount hvis hthrow
    unfold connectRackMidiOutPort
    rw [if_neg hname, if_neg hcount, if_pos hvis, if_pos hthrow]

/-- C9 amended witness: the three cases at concrete inputs; port "Y" is
visible to neither side, port "X" only to the output side where openPort
throws. -/
theorem c9_native_failure_cleanup_amended_witness :
    connectRackMidiInPort ⟨1, [], ["X"], false, true⟩ 255 ["p"] "Y"
        = ⟨NativeCallEnd.returnedFalse, ["p"], 0⟩
    ∧ connectRackMidiOutPort ⟨1, [], ["X"], false, true⟩ 255 ["p"] "Y"
        = ⟨NativeCallEnd.returnedFalse, ["p"], 0⟩
    ∧ connectRackMidiOutPort ⟨1, [], ["X"], false, true⟩ 255 ["p"] "X"
        = ⟨NativeCallEnd.threw, ["p"], 1⟩ := by
  have h := c9_native_failure_cleanup_amended ⟨1, [], ["X"], false, true⟩ 255 ["p"]
  exact ⟨h "Y" |>.1 (Or.inl (by decide)),
         h "Y" |>.2.1 (by decide),
         h "X" |>.2.2 (by decide) (by decide) (by decide) rfl⟩

end CarlaRtAudio
